import Mathlib

/-!
Verification of the Snowflake database backend adapter (`snowflake/base.py`):
a shallow embedding of `DatabaseWrapper.get_connection_params`,
`get_new_connection`, `create_cursor`, `_set_autocommit`, `is_usable` and of
`CursorDebugWrapper.copy_expert` / `copy_to`, together with theorems about the
claims of the specification.

Modelling conventions:
- Python exceptions become the `PyExc` inductive; fallible code returns
  `Except PyExc α`.
- The Django settings dictionary is modelled by `SettingsDict`; each of the
  seven keys the code subscripts is an `Option String` (`none` = the key is
  absent from the dict, `some v` = present with value `v`).  Python string
  truthiness is `truthy` (the empty string is the only falsy string).
- Driver objects (connection, cursor) are modelled by their behaviour, per the
  adapter's downstream driver contract: a connection exposes `cursor()` and an
  `autocommit` attribute whose assignment may raise a driver `Database.Error`.
- Calls into the driver and the debug-logging scope are additionally recorded
  as explicit event traces, so that "the driver's connect is never invoked",
  "exactly one probe statement is executed" and "the debug scope is exited
  exactly once" are statable.
-/

namespace Snowflake

/-- The Python exceptions relevant to `snowflake/base.py`:
`KeyError` (from subscripting the settings dict), Django's
`ImproperlyConfigured`, the driver's `Database.Error`, and Django's generic
`django.db.DatabaseError` category produced by `wrap_database_errors`. -/
inductive PyExc where
  | keyError (key : String)
  | improperlyConfigured (msg : String)
  | databaseError (msg : String)
  | djangoDatabaseError (msg : String)
  deriving DecidableEq, Repr

/-- The settings record `self.settings_dict` restricted to the seven keys the
backend subscripts.  `none` models a key that is entirely absent from the
dict; `some v` models a key present with value `v`. -/
structure SettingsDict where
  DATABASE : Option String
  USER : Option String
  PASSWORD : Option String
  ACCOUNT : Option String
  WAREHOUSE : Option String
  ROLE : Option String
  SCHEMA : Option String
  deriving DecidableEq, Repr

/-- Python dict subscripting `settings_dict[key]`: raises `KeyError key` when
the key is absent, otherwise yields the stored value. -/
def subscript (value : Option String) (key : String) : Except PyExc String :=
  match value with
  | none => .error (.keyError key)
  | some v => .ok v

/-- Python truthiness of a string: only the empty string is falsy. -/
def truthy (s : String) : Bool := s != ""

/-- One required-field block of `get_connection_params`.  Python:
`if settings_dict[KEY]: conn_params[param] = settings_dict[KEY]`
`else: raise ImproperlyConfigured(msg)` — where the subscript itself raises
`KeyError` when KEY is absent, and the dict assignment appends a new entry
(the seven param keys are distinct). -/
def requireField (value : Option String) (key param msg : String)
    (conn_params : List (String × String)) : Except PyExc (List (String × String)) :=
  match subscript value key with
  | .error e => .error e
  | .ok v =>
    if truthy v then .ok (conn_params ++ [(param, v)])
    else .error (.improperlyConfigured msg)

/-- `DatabaseWrapper.get_connection_params` (base.py:120-159): starting from
an empty `conn_params` dict, checks the seven settings keys in source order,
copying each truthy value under the driver's key name and raising
`ImproperlyConfigured` with the block's message on a present-but-falsy value
(note: the DATABASE block's message says "username", as in the source). -/
def get_connection_params (settings_dict : SettingsDict) :
    Except PyExc (List (String × String)) := do
  let conn_params : List (String × String) := []
  let conn_params ← requireField settings_dict.DATABASE "DATABASE" "database"
      "Please provide a username for snowflake!" conn_params
  let conn_params ← requireField settings_dict.USER "USER" "user"
      "Please provide a username for snowflake!" conn_params
  let conn_params ← requireField settings_dict.PASSWORD "PASSWORD" "password"
      "Please provide a password for snowflake!" conn_params
  let conn_params ← requireField settings_dict.ACCOUNT "ACCOUNT" "account"
      "Please provide an account for snowflake!" conn_params
  let conn_params ← requireField settings_dict.WAREHOUSE "WAREHOUSE" "warehouse"
      "Please provide a warehouse for snowflake!" conn_params
  let conn_params ← requireField settings_dict.ROLE "ROLE" "role"
      "Please provide a role for snowflake!" conn_params
  let conn_params ← requireField settings_dict.SCHEMA "SCHEMA" "schema"
      "Please provide a schema for snowflake!" conn_params
  return conn_params

/-- The seven required settings keys in the order the source checks them
(index 0 = DATABASE, ..., 6 = SCHEMA). -/
def fieldOpt (sd : SettingsDict) : Nat → Option String
  | 0 => sd.DATABASE
  | 1 => sd.USER
  | 2 => sd.PASSWORD
  | 3 => sd.ACCOUNT
  | 4 => sd.WAREHOUSE
  | 5 => sd.ROLE
  | 6 => sd.SCHEMA
  | _ => none

/-- The settings-key name at each index of the validation order. -/
def fieldKey : Nat → String
  | 0 => "DATABASE"
  | 1 => "USER"
  | 2 => "PASSWORD"
  | 3 => "ACCOUNT"
  | 4 => "WAREHOUSE"
  | 5 => "ROLE"
  | 6 => "SCHEMA"
  | _ => ""

/-- The `ImproperlyConfigured` message the source raises for each index of the
validation order.  The DATABASE block (index 0) reuses the USER wording, as in
the source. -/
def fieldMsg : Nat → String
  | 0 => "Please provide a username for snowflake!"
  | 1 => "Please provide a username for snowflake!"
  | 2 => "Please provide a password for snowflake!"
  | 3 => "Please provide an account for snowflake!"
  | 4 => "Please provide a warehouse for snowflake!"
  | 5 => "Please provide a role for snowflake!"
  | 6 => "Please provide a schema for snowflake!"
  | _ => ""

/-- A driver cursor, modelled by the behaviour of its `execute` method. -/
structure SfCursor where
  execute : String → Except PyExc Unit

/-- A driver connection object, modelled per the adapter's downstream driver
contract: it exposes a `cursor(...)` method (`cursorMethod`, keyed by the
positional arguments passed) and an `autocommit` attribute whose assignment
may raise a driver `Database.Error` (`autocommitSetError = some msg`). -/
structure Connection where
  autocommit : Bool
  autocommitSetError : Option String
  cursorMethod : List String → SfCursor

/-- The driver module `Database` (snowflake.connector), modelled by the
behaviour of its `connect` operation on a set of keyword parameters. -/
structure Driver where
  connect : List (String × String) → Except PyExc Connection

/-- Observable driver-facing events of the connection lifecycle. -/
inductive Event where
  | connectCall (conn_params : List (String × String))
  | cursorCall (args : List String)
  | executed (sql : String)
  deriving DecidableEq, Repr

/-- `DatabaseWrapper.get_new_connection` (base.py:161-164):
`Database.connect(**conn_params)`, returned unchanged.  The trace records the
single call to the driver's connect operation. -/
def get_new_connection (driver : Driver) (conn_params : List (String × String)) :
    Except PyExc Connection × List Event :=
  (driver.connect conn_params, [Event.connectCall conn_params])

/-- The host framework's connection-opening flow, modelled from the spec
(sections 4.1-4.2 and 8): parameter resolution runs first and, only if it
succeeds, `get_new_connection` is called on the resolved parameters.  An
exception from `get_connection_params` propagates with no driver call made. -/
def connectFlow (driver : Driver) (sd : SettingsDict) :
    Except PyExc Connection × List Event :=
  match get_connection_params sd with
  | .error e => (.error e, [])
  | .ok conn_params => get_new_connection driver conn_params

/-- `DatabaseWrapper.create_cursor` (base.py:169-172):
`cursor = self.connection.cursor(); return cursor` — the optional `name`
argument is ignored and `cursor()` is called with no arguments. -/
def create_cursor (conn : Connection) (name : Option String := none) :
    SfCursor × List Event :=
  (conn.cursorMethod [], [Event.cursorCall []])

/-- The driver-side assignment `self.connection.autocommit = autocommit`:
raises the connection's configured `Database.Error` if any, otherwise updates
the attribute. -/
def driverSetAutocommit (conn : Connection) (autocommit : Bool) :
    Except PyExc Connection :=
  match conn.autocommitSetError with
  | some m => .error (.databaseError m)
  | none => .ok { conn with autocommit := autocommit }

/-- Django's `wrap_database_errors` context manager, modelled from its
documented behaviour: a driver-level `Database.Error` escaping the body is
re-raised as Django's generic database-error category (same message); any
other outcome passes through unchanged. -/
def wrap_database_errors {α : Type} (body : Except PyExc α) : Except PyExc α :=
  match body with
  | .error (.databaseError m) => .error (.djangoDatabaseError m)
  | r => r

/-- `DatabaseWrapper._set_autocommit` (base.py:174-176):
`with self.wrap_database_errors: self.connection.autocommit = autocommit`. -/
def _set_autocommit (conn : Connection) (autocommit : Bool) :
    Except PyExc Connection :=
  wrap_database_errors (driverSetAutocommit conn autocommit)

/-- `DatabaseWrapper.is_usable` (base.py:178-186): opens a cursor directly on
the connection (bypassing Django's utilities), executes the single probe
statement `SELECT current_version()`, returns `false` if that raises
`Database.Error`, `true` if it succeeds; any non-driver exception propagates.
The trace records the cursor creation and the one executed statement.  (The
source's `with` block only closes the cursor on exit, which is not
observable here.) -/
def is_usable (conn : Connection) : Except PyExc Bool × List Event :=
  let cursor := conn.cursorMethod []
  let events : List Event := [Event.cursorCall [], Event.executed "SELECT current_version()"]
  match cursor.execute "SELECT current_version()" with
  | .error (.databaseError _) => (.ok false, events)
  | .error e => (.error e, events)
  | .ok _ => (.ok true, events)

/-- A raw driver cursor as used by `CursorDebugWrapper`: behaviour of its
`copy_expert(sql, file, *args)` and `copy_to(file, table, *args, **kwargs)`
methods.  `F` is the type of file objects, `A` of extra arguments, `R` of
results. -/
structure RawCursor (F A R : Type) where
  copy_expert : String → F → List A → Except PyExc R
  copy_to : F → String → List A → List (String × A) → Except PyExc R

/-- Observable events of the debug cursor wrapper: entering / exiting the
`debug_sql` logging scope, and the delegated calls on the raw cursor. -/
inductive CopyEvent (F A : Type) where
  | debugEnter (sql : String)
  | debugExit (sql : String)
  | copyExpertCall (sql : String) (file : F) (args : List A)
  | copyToCall (file : F) (table : String) (args : List A) (kwargs : List (String × A))

/-- Semantics of `with cm: body` for a context manager that emits one event on
enter and one on exit: the exit event is emitted on every path (Django's
`debug_sql` logs in a `finally` block), and the body's outcome — value or
exception — is propagated unchanged. -/
def withEvents {α E : Type} (enter exitEv : E) (body : Except PyExc α × List E) :
    Except PyExc α × List E :=
  (body.1, enter :: body.2 ++ [exitEv])

/-- Python `'COPY %s TO STDOUT' % table`: the single `%s` of the fixed format
string is replaced by `table`. -/
def copyToDebugSql (table : String) : String := "COPY " ++ table ++ " TO STDOUT"

/-- `CursorDebugWrapper.copy_expert` (base.py:464-466):
`with self.debug_sql(sql): return self.cursor.copy_expert(sql, file, *args)`. -/
def CursorDebugWrapper.copy_expert {F A R : Type} (cursor : RawCursor F A R)
    (sql : String) (file : F) (args : List A) :
    Except PyExc R × List (CopyEvent F A) :=
  withEvents (CopyEvent.debugEnter sql) (CopyEvent.debugExit sql)
    (cursor.copy_expert sql file args, [CopyEvent.copyExpertCall sql file args])

/-- `CursorDebugWrapper.copy_to` (base.py:468-470):
`with self.debug_sql(sql='COPY %s TO STDOUT' % table):`
`    return self.cursor.copy_to(file, table, *args, **kwargs)`. -/
def CursorDebugWrapper.copy_to {F A R : Type} (cursor : RawCursor F A R)
    (file : F) (table : String) (args : List A) (kwargs : List (String × A)) :
    Except PyExc R × List (CopyEvent F A) :=
  withEvents (CopyEvent.debugEnter (copyToDebugSql table))
    (CopyEvent.debugExit (copyToDebugSql table))
    (cursor.copy_to file table args kwargs, [CopyEvent.copyToCall file table args kwargs])

/-! Helper lemmas for evaluating `get_connection_params` symbolically. -/

lemma except_bind_ok {α β : Type} (a : α) (f : α → Except PyExc β) :
    (Except.ok a >>= f) = f a := rfl

lemma except_bind_error {α β : Type} (e : PyExc) (f : α → Except PyExc β) :
    ((Except.error e : Except PyExc α) >>= f) = Except.error e := rfl

lemma except_pure {α : Type} (a : α) : (pure a : Except PyExc α) = Except.ok a := rfl

lemma requireField_absent (key param msg : String) (cp : List (String × String)) :
    requireField none key param msg cp = .error (.keyError key) := rfl

lemma requireField_ok (v key param msg : String) (cp : List (String × String))
    (h : truthy v = true) :
    requireField (some v) key param msg cp = .ok (cp ++ [(param, v)]) := by
  simp [requireField, subscript, h]

lemma requireField_empty (v key param msg : String) (cp : List (String × String))
    (h : truthy v = false) :
    requireField (some v) key param msg cp = .error (.improperlyConfigured msg) := by
  simp [requireField, subscript, h]

/-- Evaluation of `get_connection_params` when all seven keys are present with
truthy values: the exact seven-entry parameter list, in insertion order. -/
lemma gcp_ok (sd : SettingsDict) (d u p a w r s : String)
    (hD : sd.DATABASE = some d) (hd : truthy d = true)
    (hU : sd.USER = some u) (hu : truthy u = true)
    (hP : sd.PASSWORD = some p) (hp : truthy p = true)
    (hA : sd.ACCOUNT = some a) (ha : truthy a = true)
    (hW : sd.WAREHOUSE = some w) (hw : truthy w = true)
    (hR : sd.ROLE = some r) (hr : truthy r = true)
    (hS : sd.SCHEMA = some s) (hs : truthy s = true) :
    get_connection_params sd =
      .ok [("database", d), ("user", u), ("password", p), ("account", a),
           ("warehouse", w), ("role", r), ("schema", s)] := by
  unfold get_connection_params
  rw [hD, hU, hP, hA, hW, hR, hS]
  simp only [requireField_ok _ _ _ _ _ hd, requireField_ok _ _ _ _ _ hu,
    requireField_ok _ _ _ _ _ hp, requireField_ok _ _ _ _ _ ha,
    requireField_ok _ _ _ _ _ hw, requireField_ok _ _ _ _ _ hr,
    requireField_ok _ _ _ _ _ hs, except_bind_ok, except_pure,
    List.nil_append, List.cons_append]

/-- Evaluation of `get_connection_params` when the field at index `i` of the
validation order is present but falsy and every earlier field is present and
truthy: the error is the `ImproperlyConfigured` of index `i`'s block,
whatever the fields after index `i` hold (they are never reached). -/
lemma gcp_first_falsy (sd : SettingsDict) (i : Nat) (v : String)
    (hi : i < 7) (hv : fieldOpt sd i = some v) (hempty : truthy v = false)
    (hprev : ∀ j, j < i → ∃ w, fieldOpt sd j = some w ∧ truthy w = true) :
    get_connection_params sd = .error (.improperlyConfigured (fieldMsg i)) := by
  interval_cases i
  · have h0 : sd.DATABASE = some v := hv
    unfold get_connection_params
    rw [h0]
    simp only [requireField_empty _ _ _ _ _ hempty, except_bind_error]
    rfl
  · obtain ⟨w0, e0, t0⟩ := hprev 0 (by omega)
    have h0 : sd.DATABASE = some w0 := e0
    have h1 : sd.USER = some v := hv
    unfold get_connection_params
    rw [h0, h1]
    simp only [requireField_ok, t0, except_bind_ok,
      requireField_empty _ _ _ _ _ hempty, except_bind_error]
    rfl
  · obtain ⟨w0, e0, t0⟩ := hprev 0 (by omega)
    obtain ⟨w1, e1, t1⟩ := hprev 1 (by omega)
    have h0 : sd.DATABASE = some w0 := e0
    have h1 : sd.USER = some w1 := e1
    have h2 : sd.PASSWORD = some v := hv
    unfold get_connection_params
    rw [h0, h1, h2]
    simp only [requireField_ok, t0, t1, except_bind_ok,
      requireField_empty _ _ _ _ _ hempty, except_bind_error]
    rfl
  · obtain ⟨w0, e0, t0⟩ := hprev 0 (by omega)
    obtain ⟨w1, e1, t1⟩ := hprev 1 (by omega)
    obtain ⟨w2, e2, t2⟩ := hprev 2 (by omega)
    have h0 : sd.DATABASE = some w0 := e0
    have h1 : sd.USER = some w1 := e1
    have h2 : sd.PASSWORD = some w2 := e2
    have h3 : sd.ACCOUNT = some v := hv
    unfold get_connection_params
    rw [h0, h1, h2, h3]
    simp only [requireField_ok, t0, t1, t2, except_bind_ok,
      requireField_empty _ _ _ _ _ hempty, except_bind_error]
    rfl
  · obtain ⟨w0, e0, t0⟩ := hprev 0 (by omega)
    obtain ⟨w1, e1, t1⟩ := hprev 1 (by omega)
    obtain ⟨w2, e2, t2⟩ := hprev 2 (by omega)
    obtain ⟨w3, e3, t3⟩ := hprev 3 (by omega)
    have h0 : sd.DATABASE = some w0 := e0
    have h1 : sd.USER = some w1 := e1
    have h2 : sd.PASSWORD = some w2 := e2
    have h3 : sd.ACCOUNT = some w3 := e3
    have h4 : sd.WAREHOUSE = some v := hv
    unfold get_connection_params
    rw [h0, h1, h2, h3, h4]
    simp only [requireField_ok, t0, t1, t2, t3, except_bind_ok,
      requireField_empty _ _ _ _ _ hempty, except_bind_error]
    rfl
  · obtain ⟨w0, e0, t0⟩ := hprev 0 (by omega)
    obtain ⟨w1, e1, t1⟩ := hprev 1 (by omega)
    obtain ⟨w2, e2, t2⟩ := hprev 2 (by omega)
    obtain ⟨w3, e3, t3⟩ := hprev 3 (by omega)
    obtain ⟨w4, e4, t4⟩ := hprev 4 (by omega)
    have h0 : sd.DATABASE = some w0 := e0
    have h1 : sd.USER = some w1 := e1
    have h2 : sd.PASSWORD = some w2 := e2
    have h3 : sd.ACCOUNT = some w3 := e3
    have h4 : sd.WAREHOUSE = some w4 := e4
    have h5 : sd.ROLE = some v := hv
    unfold get_connection_params
    rw [h0, h1, h2, h3, h4, h5]
    simp only [requireField_ok, t0, t1, t2, t3, t4, except_bind_ok,
      requireField_empty _ _ _ _ _ hempty, except_bind_error]
    rfl
  · obtain ⟨w0, e0, t0⟩ := hprev 0 (by omega)
    obtain ⟨w1, e1, t1⟩ := hprev 1 (by omega)
    obtain ⟨w2, e2, t2⟩ := hprev 2 (by omega)
    obtain ⟨w3, e3, t3⟩ := hprev 3 (by omega)
    obtain ⟨w4, e4, t4⟩ := hprev 4 (by omega)
    obtain ⟨w5, e5, t5⟩ := hprev 5 (by omega)
    have h0 : sd.DATABASE = some w0 := e0
    have h1 : sd.USER = some w1 := e1
    have h2 : sd.PASSWORD = some w2 := e2
    have h3 : sd.ACCOUNT = some w3 := e3
    have h4 : sd.WAREHOUSE = some w4 := e4
    have h5 : sd.ROLE = some w5 := e5
    have h6 : sd.SCHEMA = some v := hv
    unfold get_connection_params
    rw [h0, h1, h2, h3, h4, h5, h6]
    simp only [requireField_ok, t0, t1, t2, t3, t4, t5, except_bind_ok,
      requireField_empty _ _ _ _ _ hempty, except_bind_error]
    rfl

/-- Evaluation of `get_connection_params` when the key at index `i` of the
validation order is absent and every earlier field is present and truthy: the
subscript raises `KeyError` with that settings-key name, whatever the fields
after index `i` hold. -/
lemma gcp_absent_first (sd : SettingsDict) (i : Nat)
    (hi : i < 7) (hv : fieldOpt sd i = none)
    (hprev : ∀ j, j < i → ∃ w, fieldOpt sd j = some w ∧ truthy w = true) :
    get_connection_params sd = .error (.keyError (fieldKey i)) := by
  interval_cases i
  · have h0 : sd.DATABASE = none := hv
    unfold get_connection_params
    rw [h0]
    simp only [requireField_absent, except_bind_error]
    rfl
  · obtain ⟨w0, e0, t0⟩ := hprev 0 (by omega)
    have h0 : sd.DATABASE = some w0 := e0
    have h1 : sd.USER = none := hv
    unfold get_connection_params
    rw [h0, h1]
    simp only [requireField_ok, t0, except_bind_ok, requireField_absent, except_bind_error]
    rfl
  · obtain ⟨w0, e0, t0⟩ := hprev 0 (by omega)
    obtain ⟨w1, e1, t1⟩ := hprev 1 (by omega)
    have h0 : sd.DATABASE = some w0 := e0
    have h1 : sd.USER = some w1 := e1
    have h2 : sd.PASSWORD = none := hv
    unfold get_connection_params
    rw [h0, h1, h2]
    simp only [requireField_ok, t0, t1, except_bind_ok, requireField_absent, except_bind_error]
    rfl
  · obtain ⟨w0, e0, t0⟩ := hprev 0 (by omega)
    obtain ⟨w1, e1, t1⟩ := hprev 1 (by omega)
    obtain ⟨w2, e2, t2⟩ := hprev 2 (by omega)
    have h0 : sd.DATABASE = some w0 := e0
    have h1 : sd.USER = some w1 := e1
    have h2 : sd.PASSWORD = some w2 := e2
    have h3 : sd.ACCOUNT = none := hv
    unfold get_connection_params
    rw [h0, h1, h2, h3]
    simp only [requireField_ok, t0, t1, t2, except_bind_ok, requireField_absent,
      except_bind_error]
    rfl
  · obtain ⟨w0, e0, t0⟩ := hprev 0 (by omega)
    obtain ⟨w1, e1, t1⟩ := hprev 1 (by omega)
    obtain ⟨w2, e2, t2⟩ := hprev 2 (by omega)
    obtain ⟨w3, e3, t3⟩ := hprev 3 (by omega)
    have h0 : sd.DATABASE = some w0 := e0
    have h1 : sd.USER = some w1 := e1
    have h2 : sd.PASSWORD = some w2 := e2
    have h3 : sd.ACCOUNT = some w3 := e3
    have h4 : sd.WAREHOUSE = none := hv
    unfold get_connection_params
    rw [h0, h1, h2, h3, h4]
    simp only [requireField_ok, t0, t1, t2, t3, except_bind_ok, requireField_absent,
      except_bind_error]
    rfl
  · obtain ⟨w0, e0, t0⟩ := hprev 0 (by omega)
    obtain ⟨w1, e1, t1⟩ := hprev 1 (by omega)
    obtain ⟨w2, e2, t2⟩ := hprev 2 (by omega)
    obtain ⟨w3, e3, t3⟩ := hprev 3 (by omega)
    obtain ⟨w4, e4, t4⟩ := hprev 4 (by omega)
    have h0 : sd.DATABASE = some w0 := e0
    have h1 : sd.USER = some w1 := e1
    have h2 : sd.PASSWORD = some w2 := e2
    have h3 : sd.ACCOUNT = some w3 := e3
    have h4 : sd.WAREHOUSE = some w4 := e4
    have h5 : sd.ROLE = none := hv
    unfold get_connection_params
    rw [h0, h1, h2, h3, h4, h5]
    simp only [requireField_ok, t0, t1, t2, t3, t4, except_bind_ok, requireField_absent,
      except_bind_error]
    rfl
  · obtain ⟨w0, e0, t0⟩ := hprev 0 (by omega)
    obtain ⟨w1, e1, t1⟩ := hprev 1 (by omega)
    obtain ⟨w2, e2, t2⟩ := hprev 2 (by omega)
    obtain ⟨w3, e3, t3⟩ := hprev 3 (by omega)
    obtain ⟨w4, e4, t4⟩ := hprev 4 (by omega)
    obtain ⟨w5, e5, t5⟩ := hprev 5 (by omega)
    have h0 : sd.DATABASE = some w0 := e0
    have h1 : sd.USER = some w1 := e1
    have h2 : sd.PASSWORD = some w2 := e2
    have h3 : sd.ACCOUNT = some w3 := e3
    have h4 : sd.WAREHOUSE = some w4 := e4
    have h5 : sd.ROLE = some w5 := e5
    have h6 : sd.SCHEMA = none := hv
    unfold get_connection_params
    rw [h0, h1, h2, h3, h4, h5, h6]
    simp only [requireField_ok, t0, t1, t2, t3, t4, t5, except_bind_ok, requireField_absent,
      except_bind_error]
    rfl

/-- Decidable form of "the field at index `j` is present and truthy". -/
def goodField (sd : SettingsDict) (j : Nat) : Bool :=
  match fieldOpt sd j with
  | some w => truthy w
  | none => false

lemma goodField_iff (sd : SettingsDict) (j : Nat) :
    goodField sd j = true ↔ ∃ w, fieldOpt sd j = some w ∧ truthy w = true := by
  unfold goodField
  cases h : fieldOpt sd j <;> simp [h]

/-- Inversion: a successful run of `get_connection_params` implies every one
of the seven fields was present with a truthy value. -/
lemma gcp_ok_inv (sd : SettingsDict) (ps : List (String × String))
    (h : get_connection_params sd = .ok ps) :
    ∀ i, i < 7 → ∃ w, fieldOpt sd i = some w ∧ truthy w = true := by
  by_contra hc
  push_neg at hc
  obtain ⟨i, hi, hbad⟩ := hc
  have hbad2 : goodField sd i = false := by
    cases hgf : goodField sd i with
    | false => rfl
    | true =>
      obtain ⟨w, hw, tw⟩ := (goodField_iff sd i).mp hgf
      exact absurd tw (hbad w hw)
  have hex : ∃ j, goodField sd j = false := ⟨i, hbad2⟩
  have hk : goodField sd (Nat.find hex) = false := Nat.find_spec hex
  have hk7 : Nat.find hex < 7 := lt_of_le_of_lt (Nat.find_min' hex hbad2) hi
  have hprev : ∀ j, j < Nat.find hex → ∃ w, fieldOpt sd j = some w ∧ truthy w = true := by
    intro j hj
    have hne := Nat.find_min hex hj
    cases hgf : goodField sd j with
    | false => exact absurd hgf hne
    | true => exact (goodField_iff sd j).mp hgf
  cases hfo : fieldOpt sd (Nat.find hex) with
  | none =>
    rw [gcp_absent_first sd (Nat.find hex) hk7 hfo hprev] at h
    exact Except.noConfusion h
  | some v =>
    have hempty : truthy v = false := by
      unfold goodField at hk
      rw [hfo] at hk
      exact hk
    rw [gcp_first_falsy sd (Nat.find hex) v hk7 hfo hempty hprev] at h
    exact Except.noConfusion h

/-- Inversion: an `ImproperlyConfigured` outcome of `get_connection_params`
implies some one of the seven fields was present with a falsy value. -/
lemma gcp_improper_inv (sd : SettingsDict) (m : String)
    (h : get_connection_params sd = .error (.improperlyConfigured m)) :
    ∃ i v, i < 7 ∧ fieldOpt sd i = some v ∧ truthy v = false := by
  by_cases hall : ∀ j, j < 7 → goodField sd j = true
  · obtain ⟨w0, e0, t0⟩ := (goodField_iff sd 0).mp (hall 0 (by omega))
    obtain ⟨w1, e1, t1⟩ := (goodField_iff sd 1).mp (hall 1 (by omega))
    obtain ⟨w2, e2, t2⟩ := (goodField_iff sd 2).mp (hall 2 (by omega))
    obtain ⟨w3, e3, t3⟩ := (goodField_iff sd 3).mp (hall 3 (by omega))
    obtain ⟨w4, e4, t4⟩ := (goodField_iff sd 4).mp (hall 4 (by omega))
    obtain ⟨w5, e5, t5⟩ := (goodField_iff sd 5).mp (hall 5 (by omega))
    obtain ⟨w6, e6, t6⟩ := (goodField_iff sd 6).mp (hall 6 (by omega))
    rw [gcp_ok sd w0 w1 w2 w3 w4 w5 w6 e0 t0 e1 t1 e2 t2 e3 t3 e4 t4 e5 t5 e6 t6] at h
    exact Except.noConfusion h
  · push_neg at hall
    obtain ⟨i, hi, hbad⟩ := hall
    simp only [Bool.not_eq_true] at hbad
    have hex : ∃ j, goodField sd j = false := ⟨i, hbad⟩
    have hk : goodField sd (Nat.find hex) = false := Nat.find_spec hex
    have hk7 : Nat.find hex < 7 := lt_of_le_of_lt (Nat.find_min' hex hbad) hi
    have hprev : ∀ j, j < Nat.find hex → ∃ w, fieldOpt sd j = some w ∧ truthy w = true := by
      intro j hj
      have hne := Nat.find_min hex hj
      cases hgf : goodField sd j with
      | false => exact absurd hgf hne
      | true => exact (goodField_iff sd j).mp hgf
    cases hfo : fieldOpt sd (Nat.find hex) with
    | none =>
      rw [gcp_absent_first sd (Nat.find hex) hk7 hfo hprev] at h
      simp at h
    | some v =>
      have hempty : truthy v = false := by
        unfold goodField at hk
        rw [hfo] at hk
        exact hk
      exact ⟨Nat.find hex, v, hk7, hfo, hempty⟩

/-! Concrete fixtures used by witnesses and counterexamples. -/

/-- A fully populated settings record. -/
def sdFull : SettingsDict :=
  ⟨some "D", some "U", some "P", some "A", some "W", some "R", some "S"⟩

/-- DATABASE present but empty; every other key present and non-empty. -/
def sdEmptyDatabase : SettingsDict :=
  ⟨some "", some "U", some "P", some "A", some "W", some "R", some "S"⟩

/-- USER present but empty; every other key present and non-empty. -/
def sdEmptyUser : SettingsDict :=
  ⟨some "D", some "", some "P", some "A", some "W", some "R", some "S"⟩

/-- WAREHOUSE present but empty; every other key present and non-empty. -/
def sdEmptyWarehouse : SettingsDict :=
  ⟨some "D", some "U", some "P", some "A", some "", some "R", some "S"⟩

/-- DATABASE absent from the record, USER present but empty. -/
def sdAbsentDatabaseEmptyUser : SettingsDict :=
  ⟨none, some "", some "P", some "A", some "W", some "R", some "S"⟩

/-- DATABASE present but empty, USER absent from the record. -/
def sdEmptyDatabaseAbsentUser : SettingsDict :=
  ⟨some "", none, some "P", some "A", some "W", some "R", some "S"⟩

/-- ROLE absent from the record; every earlier key present and non-empty. -/
def sdAbsentRole : SettingsDict :=
  ⟨some "D", some "U", some "P", some "A", some "W", none, some "S"⟩

/-- PASSWORD and SCHEMA both present but empty; the rest non-empty. -/
def sdEmptyPasswordAndSchema : SettingsDict :=
  ⟨some "D", some "U", some "", some "A", some "W", some "R", some ""⟩

/-- A cursor whose every statement succeeds. -/
def stubCursor : SfCursor := { execute := fun _ => .ok () }

/-- A driver stub (its connect behaviour is irrelevant to the claims). -/
def driverStub : Driver := { connect := fun _ => .error (.databaseError "unreachable") }

/-- A healthy connection: autocommit assignment succeeds, statements succeed. -/
def connHealthy : Connection :=
  { autocommit := false, autocommitSetError := none, cursorMethod := fun _ => stubCursor }

/-- A connection whose driver raises on autocommit assignment. -/
def connToggleFails : Connection :=
  { autocommit := false, autocommitSetError := some "session failure",
    cursorMethod := fun _ => stubCursor }

/-- A connection whose cursors fail every statement with a driver error. -/
def connProbeFails : Connection :=
  { autocommit := false, autocommitSetError := none,
    cursorMethod := fun _ => { execute := fun _ => .error (.databaseError "network down") } }

/-! Concrete evaluation checks of the embedding. -/
example :
    get_connection_params
      ⟨some "D", some "U", some "P", some "A", some "W", some "R", some "S"⟩ =
      .ok [("database", "D"), ("user", "U"), ("password", "P"), ("account", "A"),
           ("warehouse", "W"), ("role", "R"), ("schema", "S")] := rfl

example :
    get_connection_params
      ⟨some "D", some "", some "P", some "A", some "W", some "R", some "S"⟩ =
      .error (.improperlyConfigured "Please provide a username for snowflake!") := rfl

example :
    get_connection_params
      ⟨none, some "", some "P", some "A", some "W", some "R", some "S"⟩ =
      .error (.keyError "DATABASE") := rfl

/-! The claims. -/

/-- C1 (corrected): whenever some required field is present but empty,
`get_connection_params` fails before any connection attempt — the
connection flow produces an error and an empty driver-event trace, so the
driver's `connect` is never invoked.  The error is the claimed
`ImproperlyConfigured` provided every field before the empty one in the
validation order is present and non-empty (if an earlier key is absent, a
`KeyError` is raised instead — see the counterexample — but still with no
connection attempt). -/
theorem claim_C1 (driver : Driver) (sd : SettingsDict) (i : Nat) (v : String)
    (hi : i < 7) (hv : fieldOpt sd i = some v) (hempty : truthy v = false) :
    (∃ e, connectFlow driver sd = (.error e, ([] : List Event))) ∧
    ((∀ j, j < i → ∃ w, fieldOpt sd j = some w ∧ truthy w = true) →
      ∃ m, connectFlow driver sd = (.error (.improperlyConfigured m), ([] : List Event))) := by
  constructor
  · cases hres : get_connection_params sd with
    | error e =>
      refine ⟨e, ?_⟩
      unfold connectFlow
      rw [hres]
    | ok ps =>
      obtain ⟨w, hw, tw⟩ := gcp_ok_inv sd ps hres i hi
      rw [hv] at hw
      injection hw with hvw
      rw [← hvw] at tw
      rw [tw] at hempty
      exact Bool.noConfusion hempty
  · intro hprev
    refine ⟨fieldMsg i, ?_⟩
    unfold connectFlow
    rw [gcp_first_falsy sd i v hi hv hempty hprev]

/-- Witness for C1 at a concrete input: WAREHOUSE (index 4) is present but
empty and all earlier fields are fine, so the flow stops with
`ImproperlyConfigured` and an empty driver trace. -/
theorem claim_C1_witness :
    (∃ e, connectFlow driverStub sdEmptyWarehouse = (.error e, ([] : List Event))) ∧
    (∃ m, connectFlow driverStub sdEmptyWarehouse =
      (.error (.improperlyConfigured m), ([] : List Event))) := by
  have h := claim_C1 driverStub sdEmptyWarehouse 4 "" (by omega) rfl rfl
  exact ⟨h.1, h.2 (by intro j hj; interval_cases j <;> exact ⟨_, rfl, rfl⟩)⟩

/-- Counterexample to C1 as stated: in a record where USER is present but
empty while DATABASE is absent, `get_connection_params` raises `KeyError`,
not the claimed `ImproperlyConfigured`. -/
theorem claim_C1_counterexample :
    sdAbsentDatabaseEmptyUser.USER = some "" ∧
    get_connection_params sdAbsentDatabaseEmptyUser = .error (.keyError "DATABASE") ∧
    ¬ ∃ m, get_connection_params sdAbsentDatabaseEmptyUser =
        .error (.improperlyConfigured m) := by
  refine ⟨rfl, rfl, ?_⟩
  rintro ⟨m, hm⟩
  have h2 : (Except.error (PyExc.keyError "DATABASE") :
      Except PyExc (List (String × String))) = .error (.improperlyConfigured m) := hm
  simp at h2

/-- C2 (code bug in the source): the DATABASE block of
`get_connection_params` raises "Please provide a username for snowflake!" —
the very same message as the USER block — so the seven messages are not
distinct per field and the message for a missing DATABASE does not name the
database: configurations with an empty DATABASE and with an empty USER
produce identical errors. -/
theorem claim_C2_code_bug :
    get_connection_params sdEmptyDatabase =
      .error (.improperlyConfigured "Please provide a username for snowflake!") ∧
    get_connection_params sdEmptyUser =
      .error (.improperlyConfigured "Please provide a username for snowflake!") ∧
    fieldMsg 0 = fieldMsg 1 :=
  ⟨rfl, rfl, rfl⟩

/-- C3 (confirmed): when all seven required fields are present and non-empty,
`get_connection_params` returns exactly the seven driver-expected keys
`database, user, password, account, warehouse, role, schema`, each mapped
verbatim to the configured value, with no additional or default entries. -/
theorem claim_C3 (sd : SettingsDict) (d u p a w r s : String)
    (hD : sd.DATABASE = some d) (hd : truthy d = true)
    (hU : sd.USER = some u) (hu : truthy u = true)
    (hP : sd.PASSWORD = some p) (hp : truthy p = true)
    (hA : sd.ACCOUNT = some a) (ha : truthy a = true)
    (hW : sd.WAREHOUSE = some w) (hw : truthy w = true)
    (hR : sd.ROLE = some r) (hr : truthy r = true)
    (hS : sd.SCHEMA = some s) (hs : truthy s = true) :
    get_connection_params sd =
      .ok [("database", d), ("user", u), ("password", p), ("account", a),
           ("warehouse", w), ("role", r), ("schema", s)] :=
  gcp_ok sd d u p a w r s hD hd hU hu hP hp hA ha hW hw hR hr hS hs

/-- Witness for C3 at the spec's example configuration. -/
theorem claim_C3_witness :
    get_connection_params sdFull =
      .ok [("database", "D"), ("user", "U"), ("password", "P"), ("account", "A"),
           ("warehouse", "W"), ("role", "R"), ("schema", "S")] :=
  claim_C3 sdFull "D" "U" "P" "A" "W" "R" "S"
    rfl rfl rfl rfl rfl rfl rfl rfl rfl rfl rfl rfl rfl rfl

/-- C4 (confirmed): `is_usable` opens a cursor directly on the connection
(cursor call with no arguments) and executes exactly one probe statement,
`SELECT current_version()`; if that probe raises a driver `Database.Error`
the result is `false` — the error is absorbed, not propagated — and if the
probe succeeds the result is `true`. -/
theorem claim_C4 (conn : Connection) :
    (∀ m, (conn.cursorMethod []).execute "SELECT current_version()" =
        .error (.databaseError m) →
      is_usable conn =
        (.ok false, [Event.cursorCall [], Event.executed "SELECT current_version()"])) ∧
    ((conn.cursorMethod []).execute "SELECT current_version()" = .ok () →
      is_usable conn =
        (.ok true, [Event.cursorCall [], Event.executed "SELECT current_version()"])) := by
  constructor
  · intro m h
    simp [is_usable, h]
  · intro h
    simp [is_usable, h]

/-- Witness for C4 at concrete connections: one whose probe fails with a
driver error (liveness check false), one whose probe succeeds (true). -/
theorem claim_C4_witness :
    is_usable connProbeFails =
      (.ok false, [Event.cursorCall [], Event.executed "SELECT current_version()"]) ∧
    is_usable connHealthy =
      (.ok true, [Event.cursorCall [], Event.executed "SELECT current_version()"]) :=
  ⟨(claim_C4 connProbeFails).1 "network down" rfl, (claim_C4 connHealthy).2 rfl⟩

/-- C5 (confirmed): when the driver raises a `Database.Error` during the
autocommit assignment, `_set_autocommit` — which performs the assignment
inside `wrap_database_errors` — surfaces the failure as the host framework's
generic database-error category, not as the driver-specific exception. -/
theorem claim_C5 (conn : Connection) (b : Bool) (m : String)
    (h : conn.autocommitSetError = some m) :
    _set_autocommit conn b = .error (.djangoDatabaseError m) := by
  simp [_set_autocommit, wrap_database_errors, driverSetAutocommit, h]

/-- Witness for C5 at a concrete failing connection. -/
theorem claim_C5_witness :
    _set_autocommit connToggleFails true = .error (.djangoDatabaseError "session failure") :=
  claim_C5 connToggleFails true "session failure" rfl

/-- C6 (confirmed): when the driver raises no error during the assignment,
`_set_autocommit b` succeeds and the connection's autocommit attribute then
reads back `b`, for either boolean. -/
theorem claim_C6 (conn : Connection) (b : Bool)
    (h : conn.autocommitSetError = none) :
    ∃ conn2, _set_autocommit conn b = .ok conn2 ∧ conn2.autocommit = b := by
  refine ⟨{ conn with autocommit := b }, ?_, rfl⟩
  simp [_set_autocommit, wrap_database_errors, driverSetAutocommit, h]

/-- Witness for C6 at a concrete healthy connection, for both booleans. -/
theorem claim_C6_witness :
    (∃ conn2, _set_autocommit connHealthy true = .ok conn2 ∧ conn2.autocommit = true) ∧
    (∃ conn2, _set_autocommit connHealthy false = .ok conn2 ∧ conn2.autocommit = false) :=
  ⟨claim_C6 connHealthy true rfl, claim_C6 connHealthy false rfl⟩

/-- C7 (confirmed): the debug cursor wrapper's `copy_expert` and `copy_to`
delegate to the underlying cursor's operation of the same name with the
identical, untransformed arguments and return its outcome unchanged
(exceptions included), and the debug-logging scope — carrying the given SQL
for `copy_expert` and the synthesized `COPY <table> TO STDOUT` for `copy_to`
— is entered before the underlying call and exited exactly once on every
path. -/
theorem claim_C7 {F A R : Type} (cursor : RawCursor F A R) (sql : String)
    (file : F) (args : List A) (table : String) (kwargs : List (String × A)) :
    CursorDebugWrapper.copy_expert cursor sql file args =
      (cursor.copy_expert sql file args,
       [CopyEvent.debugEnter sql, CopyEvent.copyExpertCall sql file args,
        CopyEvent.debugExit sql]) ∧
    CursorDebugWrapper.copy_to cursor file table args kwargs =
      (cursor.copy_to file table args kwargs,
       [CopyEvent.debugEnter ("COPY " ++ table ++ " TO STDOUT"),
        CopyEvent.copyToCall file table args kwargs,
        CopyEvent.debugExit ("COPY " ++ table ++ " TO STDOUT")]) :=
  ⟨rfl, rfl⟩

/-- C8 (confirmed): `create_cursor` returns exactly the cursor obtained from
the live connection's `cursor()` called with no arguments, for every value of
the optional `name` argument — the name is ignored and no per-cursor
configuration is applied to the returned cursor. -/
theorem claim_C8 (conn : Connection) (name : Option String) :
    create_cursor conn name = (conn.cursorMethod [], [Event.cursorCall []]) := rfl

/-- C9 (corrected): when one of the seven required keys is entirely absent
and every field before it in the validation order is present and non-empty,
`get_connection_params` fails with a `KeyError` naming that settings key —
not with `ImproperlyConfigured`; and in general the `ImproperlyConfigured`
configuration error arises only when some field is present with a falsy
value.  (If a present-but-empty field precedes the absent key, the
configuration error wins instead — see the counterexample.) -/
theorem claim_C9 (sd : SettingsDict) (i : Nat)
    (hi : i < 7) (habs : fieldOpt sd i = none)
    (hprev : ∀ j, j < i → ∃ w, fieldOpt sd j = some w ∧ truthy w = true) :
    get_connection_params sd = .error (.keyError (fieldKey i)) ∧
    ∀ sd2 m, get_connection_params sd2 = .error (.improperlyConfigured m) →
      ∃ j w, j < 7 ∧ fieldOpt sd2 j = some w ∧ truthy w = false :=
  ⟨gcp_absent_first sd i hi habs hprev,
   fun sd2 m h => gcp_improper_inv sd2 m h⟩

/-- Witness for C9 at a concrete input: ROLE (index 5) is absent and all
earlier fields are fine, so the failure is `KeyError "ROLE"`. -/
theorem claim_C9_witness :
    get_connection_params sdAbsentRole = .error (.keyError "ROLE") :=
  (claim_C9 sdAbsentRole 5 (by omega) rfl
    (by intro j hj; interval_cases j <;> exact ⟨_, rfl, rfl⟩)).1

/-- Counterexample to C9 as stated: in a record where USER is entirely absent
but DATABASE is present and empty, `get_connection_params` raises
`ImproperlyConfigured`, not the claimed `KeyError`. -/
theorem claim_C9_counterexample :
    sdEmptyDatabaseAbsentUser.USER = none ∧
    get_connection_params sdEmptyDatabaseAbsentUser =
      .error (.improperlyConfigured "Please provide a username for snowflake!") ∧
    ¬ ∃ k, get_connection_params sdEmptyDatabaseAbsentUser = .error (.keyError k) := by
  refine ⟨rfl, rfl, ?_⟩
  rintro ⟨k, hk⟩
  have h2 : (Except.error (PyExc.improperlyConfigured
      "Please provide a username for snowflake!") :
      Except PyExc (List (String × String))) = .error (.keyError k) := hk
  simp at h2

/-- C10 (confirmed): `get_connection_params` validates the seven fields in
the fixed order DATABASE, USER, PASSWORD, ACCOUNT, WAREHOUSE, ROLE, SCHEMA:
whenever the field at index `i` is the earliest present-but-empty one, the
single error raised is the `ImproperlyConfigured` of that field's block —
regardless of what the later fields hold, which are never examined (the
conclusion is independent of them, and they may even be absent). -/
theorem claim_C10 (sd : SettingsDict) (i : Nat) (v : String)
    (hi : i < 7) (hv : fieldOpt sd i = some v) (hempty : truthy v = false)
    (hprev : ∀ j, j < i → ∃ w, fieldOpt sd j = some w ∧ truthy w = true) :
    get_connection_params sd = .error (.improperlyConfigured (fieldMsg i)) :=
  gcp_first_falsy sd i v hi hv hempty hprev

/-- Witness for C10 at a concrete input: PASSWORD (index 2) and SCHEMA
(index 6) are both empty; the error reported is PASSWORD's, the earliest. -/
theorem claim_C10_witness :
    get_connection_params sdEmptyPasswordAndSchema =
      .error (.improperlyConfigured "Please provide a password for snowflake!") :=
  claim_C10 sdEmptyPasswordAndSchema 2 "" (by omega) rfl rfl
    (by intro j hj; interval_cases j <;> exact ⟨_, rfl, rfl⟩)

end Snowflake
